import Mathlib

/-!
Verification of the demand-sheet OCR submission backend (`api/submit.js`).

The file shallowly embeds the three pieces of the handler that carry logic:

* `getTextFromSpan` — the text-anchor span resolver;
* `extractDemandData` — the page/table/row walk with positional column
  mapping and the catalog/quantity filter;
* the request handler (`module.exports`) — validation, the
  stage-blob / OCR / cleanup / append lifecycle and the four response shapes.

JavaScript exceptions are modelled with `Option`: a function that can throw
returns `none` exactly on the inputs where the JS code throws.  External
collaborators (GCS, Document AI, Sheets) are modelled by an oracle record
giving each network call's outcome; the handler is then a pure function of
the request and the oracle, together with the ordered list of collaborator
calls it performed.
-/

namespace TacBackend

/-- One entry of `textAnchor.textSegments` in the Document AI graph.
`startIndex` / `endIndex` may be absent (the JS reads them with `|| 0`). -/
structure TextSegment where
  startIndex : Option Nat
  endIndex : Option Nat
deriving DecidableEq

/-- A Document AI text anchor; `textSegments` may be absent. -/
structure TextAnchor where
  textSegments : Option (List TextSegment)
deriving DecidableEq

/-- A cell layout; `textAnchor` may be absent (the codeguards on it). -/
structure Layout where
  textAnchor : Option TextAnchor
deriving DecidableEq

/-- A table cell.  The code reads `cell.layout.textAnchor` unguarded, so
`layout` is modelled as required. -/
structure Cell where
  layout : Layout
deriving DecidableEq

/-- A table body row; `cells` may be absent (`row.cells && ...`). -/
structure BodyRow where
  cells : Option (List Cell)
deriving DecidableEq

/-- A table.  The code iterates `table.bodyRows` unguarded, so it is
modelled as required. -/
structure Table where
  bodyRows : List BodyRow
deriving DecidableEq

/-- A page; `tables` may be absent (`if (page.tables)`). -/
structure Page where
  tables : Option (List Table)
deriving DecidableEq

/-- The OCR document graph: the full text buffer plus the pages.
`pages` may be absent (`document.pages && document.pages.length > 0`);
`text` is read unguarded and is modelled as required.  JS strings are
indexed by code units; we model the buffer as a Lean `String` indexed by
its character list. -/
structure Document where
  text : String
  pages : Option (List Page)
deriving DecidableEq

/-- One output row, pushed by the source as
`[submissionDate, storeId, itemName, quantity]`. -/
structure DemandRow where
  submissionDate : String
  storeId : String
  itemName : String
  quantity : String
deriving DecidableEq

/-- The fixed catalog `FIXED_ITEM_LIST` from `api/submit.js`, verbatim. -/
def FIXED_ITEM_LIST : List String := [
  "Sambhar", "Red Chutney", "Dosa Batter", "Idli Batter", "Vada Batter", "Rawa mix", "Onion masala",
  "Upma Sooji", "Garlic Paste", "Podi Masala", "Sugar", "Poha", "Besan", "Sarson (Mustard seed)",
  "Kali Mirch", "Jeera", "Kaju", "Pineapple Halwa", "Kacha Peanut Chilke wala", "Dhania Whole",
  "Rice", "Atta", "Fortune Refined", "Desi Ghee", "Roasted Chana", "Staff Dal", "Whole red chilli",
  "Achar", "Chhole", "Rajma", "Chana Dal", "Sarson Tel", "Meetha Soda", "Roasted Peanuts",
  "Soya Badi", "Filter Coffee Pow.", "Chai Patti", "Onions", "Tomatoes", "Green Chillies(Hari Mirch)",
  "Coriander leaves(Dhaniya Patta)", "Curry Leaves (Kari Patta)", "Banana Leaves(Kela Patta)",
  "Ginger", "Coconut Crush", "Carrot", "Beans", "Potato(aloo)", "Garlic", "Mint(Pudina)", "Lemon",
  "Staff Veg.", "Deggi Mirch", "Garam Masala", "Hing Powder", "Dhania Powder", "Kitchen King",
  "Chat Masala", "Haldi Powder", "Hari Ilaychi", "Tata Salt", "Black Salt", "50ML Container",
  "100ML Container", "250ML Container", "300ML Container", "500ML Container", "Podi Idli Container",
  "Silver container", "Vada Lifafa", "Dosa Box Small", "Dosa Box Big", "16*20 Biopolythene",
  "13*16 Biopolythene", "Bio Garbagebag Big Size", "Printer Roll", "Bio Spoon", "Wooden Plates",
  "Paper Bowl", "Filter Coffee Glass", "Masala Chhachh Glass", "Filter Coffee Packaging",
  "Masala Chhachh Packaging", "Tape", "Clean Wrap", "Tissues", "Chef Cap", "Butter Paper",
  "Delivery Bag"]

/-- The whitespace class trimmed by JS `String.prototype.trim` (the
principal members: ASCII whitespace, NBSP, BOM). -/
def jsWhitespace (c : Char) : Bool :=
  c == ' ' || c == '\t' || c == '\n' || c == '\r' || c == '\u000B' || c == '\u000C' ||
    c == '\u00A0' || c == '\uFEFF'

/-- JS `s.trim()`: drop leading and trailing whitespace. -/
def jsTrim (s : String) : String :=
  String.mk (((s.data.dropWhile jsWhitespace).reverse.dropWhile jsWhitespace).reverse)

/-- JS `s.replace(/\D/g, '')`: keep exactly the decimal digits. -/
def stripNonDigits (s : String) : String :=
  String.mk (s.data.filter Char.isDigit)

/-- The quantity normalization applied at line 100 of `api/submit.js`:
`qtyText.trim().replace(/\D/g, '')`. -/
def normalizeQuantity (s : String) : String :=
  stripNonDigits (jsTrim s)

/-- JS `s.substring(a, b)`: clamp both indices to `[0, length]`, swap them
when `a > b`, and take the characters in between. -/
def jsSubstring (s : String) (a b : Nat) : String :=
  let len := s.data.length
  let a1 := min a len
  let b1 := min b len
  String.mk ((s.data.drop (min a1 b1)).take (max a1 b1 - min a1 b1))

/-- `getTextFromSpan` (lines 70–77 of `api/submit.js`).

```js
if (!textAnchor || !textAnchor.textSegments) return "";
const start = textAnchor.textSegments[0].startIndex || 0;
const end = textAnchor.textSegments[textAnchor.textSegments.length - 1].endIndex || 0;
return document.text.substring(start, end);
```

An absent anchor or absent segment list returns `""`.  A present but EMPTY
segment list is not caught by the guard (an empty JS array is truthy), so
`textSegments[0].startIndex` throws a `TypeError`; that is the `none`
result. -/
def getTextFromSpan (document : Document) (textAnchor : Option TextAnchor) : Option String :=
  match textAnchor with
  | none => some ""
  | some ta =>
    match ta.textSegments with
    | none => some ""
    | some [] => none
    | some (first :: rest) =>
      some (jsSubstring document.text ((first.startIndex).getD 0)
        (((List.getLastD rest first).endIndex).getD 0))

/-- A resolver that joins the per-segment substrings.  This follows the
spec's words for the REJECTED alternative reading of the data-model
invariant ("not a join of all segments"); it exists only to be compared
with `getTextFromSpan`, which resolves first-start-to-last-end instead. -/
def joinSegmentsResolver (document : Document) (textAnchor : Option TextAnchor) : String :=
  match textAnchor with
  | none => ""
  | some ta =>
    match ta.textSegments with
    | none => ""
    | some segs =>
      (segs.map (fun seg =>
        jsSubstring document.text ((seg.startIndex).getD 0) ((seg.endIndex).getD 0))).foldl
        (fun a b => a ++ b) ""

/-- The candidate pair read from one body row, before the catalog filter:
cell index 1 is the item text, cell index 3 the quantity text.  Rows with
`cells` absent or fewer than 4 cells produce no candidate.  `none` models a
`TypeError` thrown while resolving a span. -/
def rowCandidates (document : Document) (row : BodyRow) : Option (List (String × String)) :=
  match row.cells with
  | none => some []
  | some (_ :: itemCell :: _ :: qtyCell :: _) =>
    match getTextFromSpan document itemCell.layout.textAnchor with
    | none => none
    | some itemText =>
      match getTextFromSpan document qtyCell.layout.textAnchor with
      | none => none
      | some qtyText => some [(itemText, qtyText)]
  | some _ => some []

/-- The catalog/quantity filter applied to one candidate pair
(lines 98–109 of `api/submit.js`): trim the item, normalize the quantity,
and keep the pair iff the trimmed item is in `FIXED_ITEM_LIST` and the
digit string is non-empty. -/
def filterPair (storeId submissionDate : String) (p : String × String) : List DemandRow :=
  let itemName := jsTrim p.1
  let quantity := normalizeQuantity p.2
  if itemName ∈ FIXED_ITEM_LIST ∧ quantity ≠ "" then
    [⟨submissionDate, storeId, itemName, quantity⟩]
  else []

/-- The body of the row loop in `extractDemandData`: guard on `cells` and
its length, resolve the two spans, then filter. -/
def extractRow (document : Document) (storeId submissionDate : String) (row : BodyRow) :
    Option (List DemandRow) :=
  match row.cells with
  | none => some []
  | some (_ :: itemCell :: _ :: qtyCell :: _) =>
    match getTextFromSpan document itemCell.layout.textAnchor with
    | none => none
    | some itemText =>
      match getTextFromSpan document qtyCell.layout.textAnchor with
      | none => none
      | some qtyText =>
        let itemName := jsTrim itemText
        let quantity := normalizeQuantity qtyText
        if itemName ∈ FIXED_ITEM_LIST ∧ quantity ≠ "" then
          some [⟨submissionDate, storeId, itemName, quantity⟩]
        else some []
  | some _ => some []

/-- Run `f` over a list, concatenating the produced rows in order; `none`
(a thrown exception) aborts the whole traversal, as in JS. -/
def collectSome (f : α → Option (List β)) : List α → Option (List β)
  | [] => some []
  | a :: as =>
    match f a with
    | none => none
    | some bs =>
      match collectSome f as with
      | none => none
      | some rest => some (bs ++ rest)

/-- The table loop body: walk `table.bodyRows` in order. -/
def extractTable (document : Document) (storeId submissionDate : String) (table : Table) :
    Option (List DemandRow) :=
  collectSome (extractRow document storeId submissionDate) table.bodyRows

/-- The page loop body: walk `page.tables` in order when present
(`if (page.tables)`). -/
def extractPage (document : Document) (storeId submissionDate : String) (page : Page) :
    Option (List DemandRow) :=
  match page.tables with
  | none => some []
  | some ts => collectSome (extractTable document storeId submissionDate) ts

/-- `extractDemandData` (lines 80–117 of `api/submit.js`): guard
`document.pages && document.pages.length > 0`, then walk pages, tables and
body rows in order, accumulating the accepted rows. -/
def extractDemandData (document : Document) (storeId : String) (submissionDate : String) :
    Option (List DemandRow) :=
  match document.pages with
  | none => some []
  | some pages =>
    if pages.length > 0 then
      collectSome (extractPage document storeId submissionDate) pages
    else some []

/-- A JS error value as seen by the catch block: `error.code` (compared
against the string `'NotFound'`; absent or non-string codes are `none`)
and `error.message`. -/
structure JsError where
  code : Option String
  message : String
deriving DecidableEq

/-- The collaborator calls the handler can perform, in the order the code
issues them: GCS `file.save`, Document AI `processDocument`, GCS
`file.delete`, Sheets `values.append`. -/
inductive Effect where
  | gcsSave
  | docaiProcess
  | gcsDelete
  | sheetsAppend
deriving DecidableEq

/-- The JSON body shapes returned by the handler, as one record of the
fields any of them may carry (absent fields are `none`).  Field order:
`status`, `message`, `rows_added`, `details`, `error`. -/
structure JsonBody where
  status : Option String
  message : Option String
  rows_added : Option Nat
  details : Option String
  error : Option String
deriving DecidableEq

/-- The handler's observable outcome: HTTP status, JSON body, and the
ordered list of collaborator calls it attempted. -/
structure HandlerResult where
  httpStatus : Nat
  body : JsonBody
  effects : List Effect
deriving DecidableEq

/-- The request: `req.method` plus the destructured body fields
`{ storeId, date, image, mimeType, filename }`; each body field may be
absent. -/
structure Request where
  method : String
  storeId : Option String
  date : Option String
  image : Option String
  mimeType : Option String
  filename : Option String
deriving DecidableEq

/-- Outcomes of the external calls, fixed per request.  `saveResult` /
`deleteResult` are `none` on success and `some e` when the call rejects
with `e`; `appendResult`'s success value is `updateResult.data.updates.updatedRows`,
which may itself be absent (the code reads it with `|| 0`).
`catchDeleteResult` is the outcome of the best-effort `file.delete()`
inside the catch block; the code logs and discards it, so the handler
never reads this field. -/
structure Collaborators where
  saveResult : Option JsError
  ocrResult : Except JsError Document
  deleteResult : Option JsError
  appendResult : Except JsError (Option Nat)
  catchDeleteResult : Option JsError

/-- JS truthiness of a destructured request body field: present and not
the empty string. -/
def jsTruthy (o : Option String) : Bool :=
  match o with
  | none => false
  | some s => s != ""

/-- The 405 body `{ error: 'Method Not Allowed' }`. -/
def methodNotAllowedBody : JsonBody :=
  ⟨none, none, none, none, some "Method Not Allowed"⟩

/-- The 400 body `{ error: 'Missing required data in request body.' }`. -/
def missingDataBody : JsonBody :=
  ⟨none, none, none, none, some "Missing required data in request body."⟩

/-- The 200 warning body returned when no rows were extracted. -/
def warningBody : JsonBody :=
  ⟨some "warning",
    some "Successfully processed image, but no recognizable quantities were found. Check if the handwriting is clear.",
    some 0, none, none⟩

/-- The 200 success body, with the appended row count interpolated into
the message. -/
def successBody (rowsAppended : Nat) : JsonBody :=
  ⟨some "success",
    some ("Successfully processed demand. " ++ toString rowsAppended ++
      " item rows appended to Google Sheet."),
    some rowsAppended, none, none⟩

/-- The 500 body built in the catch block; `details` carries the original
error's message. -/
def errorBody (details : String) : JsonBody :=
  ⟨some "error",
    some "A critical error occurred during OCR, GCS upload, or Sheets update.",
    none, some details, none⟩

/-- The message of the `TypeError` thrown by `getTextFromSpan` on an
empty segment list.  Models the JS runtime's message; no claim depends on
its exact text. -/
def jsTypeErrorMessage : String :=
  "Cannot read properties of undefined (reading 'startIndex')"

/-- The catch block (lines 199–217 of `api/submit.js`): attempt to delete
the staged blob unless `error.code === 'NotFound'`, swallow any failure of
that delete, and respond 500 with the original error's message in
`details`. -/
def runCatch (e : JsError) (effs : List Effect) : HandlerResult :=
  if e.code = some "NotFound" then ⟨500, errorBody e.message, effs⟩
  else ⟨500, errorBody e.message, effs ++ [Effect.gcsDelete]⟩

/-- The try block of the handler after validation: stage the blob, invoke
OCR, extract rows, delete the staged blob, then either return the warning
(zero rows) or append to the sheet and return success.  Any failure (a
`some`/`error` oracle outcome, or a `TypeError` out of extraction) falls
into `runCatch` with the effects attempted so far. -/
def afterValidation (storeId date : String) (c : Collaborators) : HandlerResult :=
  match c.saveResult with
  | some e => runCatch e [Effect.gcsSave]
  | none =>
    match c.ocrResult with
    | Except.error e => runCatch e [Effect.gcsSave, Effect.docaiProcess]
    | Except.ok document =>
      match extractDemandData document storeId date with
      | none => runCatch ⟨none, jsTypeErrorMessage⟩ [Effect.gcsSave, Effect.docaiProcess]
      | some newDemandRows =>
        match c.deleteResult with
        | some e => runCatch e [Effect.gcsSave, Effect.docaiProcess, Effect.gcsDelete]
        | none =>
          if newDemandRows.length = 0 then
            ⟨200, warningBody, [Effect.gcsSave, Effect.docaiProcess, Effect.gcsDelete]⟩
          else
            match c.appendResult with
            | Except.error e =>
              runCatch e
                [Effect.gcsSave, Effect.docaiProcess, Effect.gcsDelete, Effect.sheetsAppend]
            | Except.ok updatedRows =>
              ⟨200, successBody (updatedRows.getD 0),
                [Effect.gcsSave, Effect.docaiProcess, Effect.gcsDelete, Effect.sheetsAppend]⟩

/-- The request handler (`module.exports`, lines 121–219 of
`api/submit.js`): reject non-POST methods, reject requests missing a
required body field (before any collaborator call), then run the staged
pipeline.  The image bytes, filename and generated GCS key do not affect
the modelled observable behavior and are not interpreted. -/
def handler (req : Request) (c : Collaborators) : HandlerResult :=
  if req.method != "POST" then ⟨405, methodNotAllowedBody, []⟩
  else if !(jsTruthy req.storeId && jsTruthy req.date && jsTruthy req.image &&
      jsTruthy req.mimeType) then
    ⟨400, missingDataBody, []⟩
  else afterValidation (req.storeId.getD "") (req.date.getD "") c

/-! ### Helper lemmas -/

theorem collectSome_nil {α β : Type} (f : α → Option (List β)) :
    collectSome f ([] : List α) = some [] := rfl

theorem collectSome_cons {α β : Type} (f : α → Option (List β)) (a : α) (as : List α) :
    collectSome f (a :: as) =
      match f a with
      | none => none
      | some bs =>
        match collectSome f as with
        | none => none
        | some rest => some (bs ++ rest) := rfl

theorem collectSome_append_of {α β : Type} (f : α → Option (List β)) (l₁ l₂ : List α)
    (r₁ r₂ : List β) (h₁ : collectSome f l₁ = some r₁) (h₂ : collectSome f l₂ = some r₂) :
    collectSome f (l₁ ++ l₂) = some (r₁ ++ r₂) := by
  induction l₁ generalizing r₁ with
  | nil =>
    simp only [collectSome_nil, Option.some.injEq] at h₁
    subst h₁
    simpa using h₂
  | cons a as ih =>
    rw [collectSome_cons] at h₁
    rw [List.cons_append, collectSome_cons]
    cases hfa : f a with
    | none => rw [hfa] at h₁; exact absurd h₁ (by simp)
    | some bs =>
      rw [hfa] at h₁
      cases hca : collectSome f as with
      | none => rw [hca] at h₁; exact absurd h₁ (by simp)
      | some rs =>
        rw [hca] at h₁
        simp only [Option.some.injEq] at h₁
        subst h₁
        rw [ih rs hca]
        simp [List.append_assoc]

theorem collectSome_nil_of {α β : Type} (f : α → Option (List β)) (l : List α)
    (h : ∀ a ∈ l, f a = some []) : collectSome f l = some [] := by
  induction l with
  | nil => rfl
  | cons a as ih =>
    rw [collectSome_cons, h a (List.mem_cons_self a as),
      ih (fun b hb => h b (List.mem_cons_of_mem a hb))]
    rfl

theorem collectSome_singleton {α β : Type} (f : α → Option (List β)) (a : α) :
    collectSome f [a] = f a := by
  rw [collectSome_cons, collectSome_nil]
  cases f a <;> simp

theorem extractDemandData_pages (doc : Document) (st dt : String) (ps : List Page)
    (h : doc.pages = some ps) :
    extractDemandData doc st dt = collectSome (extractPage doc st dt) ps := by
  unfold extractDemandData
  rw [h]
  cases ps with
  | nil => simp [collectSome_nil]
  | cons p ps' => simp


theorem jsWhitespace_eq_false_of_isDigit {c : Char} (h : c.isDigit = true) :
    jsWhitespace c = false := by
  cases hw : jsWhitespace c with
  | false => rfl
  | true =>
    exfalso
    unfold jsWhitespace at hw
    simp only [Bool.or_eq_true, beq_iff_eq] at hw
    rcases hw with ((((((hc | hc) | hc) | hc) | hc) | hc) | hc) | hc <;>
      (subst hc; exact absurd h (by decide))

theorem dropWhile_eq_self_of_all {α : Type} {p : α → Bool} {l : List α}
    (h : ∀ a ∈ l, p a = false) : l.dropWhile p = l := by
  cases l with
  | nil => rfl
  | cons a as => simp [List.dropWhile_cons, h a (List.mem_cons_self a as)]

theorem jsTrim_eq_self {s : String} (h : ∀ c ∈ s.data, jsWhitespace c = false) :
    jsTrim s = s := by
  unfold jsTrim
  rw [dropWhile_eq_self_of_all h]
  rw [dropWhile_eq_self_of_all (fun c hc => h c (List.mem_reverse.mp hc))]
  rw [List.reverse_reverse]

theorem mem_of_mem_jsTrim {c : Char} {s : String} (h : c ∈ (jsTrim s).data) : c ∈ s.data := by
  have h1 : c ∈ ((s.data.dropWhile jsWhitespace).reverse.dropWhile jsWhitespace).reverse := h
  rw [List.mem_reverse] at h1
  have h2 := (List.dropWhile_sublist jsWhitespace).subset h1
  rw [List.mem_reverse] at h2
  exact (List.dropWhile_sublist jsWhitespace).subset h2

theorem stripNonDigits_all_digits (s : String) :
    ∀ c ∈ (stripNonDigits s).data, c.isDigit = true := by
  intro c hc
  have h1 : c ∈ s.data.filter Char.isDigit := hc
  exact (List.mem_filter.mp h1).2

theorem normalizeQuantity_of_digits {s : String} (h : ∀ c ∈ s.data, c.isDigit = true) :
    normalizeQuantity s = s := by
  unfold normalizeQuantity
  rw [jsTrim_eq_self (fun c hc => jsWhitespace_eq_false_of_isDigit (h c hc))]
  unfold stripNonDigits
  rw [List.filter_eq_self.mpr h]

theorem normalizeQuantity_idem (s : String) :
    normalizeQuantity (normalizeQuantity s) = normalizeQuantity s :=
  normalizeQuantity_of_digits (stripNonDigits_all_digits (jsTrim s))

theorem normalizeQuantity_of_no_digits {s : String} (h : ∀ c ∈ s.data, c.isDigit = false) :
    normalizeQuantity s = "" := by
  unfold normalizeQuantity stripNonDigits
  have h1 : (jsTrim s).data.filter Char.isDigit = [] := by
    rw [List.filter_eq_nil_iff]
    intro c hc
    simp [h c (mem_of_mem_jsTrim hc)]
  rw [h1]


theorem extractRow_eq_filter (doc : Document) (st dt : String) (row : BodyRow) :
    extractRow doc st dt row =
      Option.map (fun ps => (ps.map (filterPair st dt)).flatten) (rowCandidates doc row) := by
  rcases row with ⟨cells⟩
  rcases cells with _ | (_ | ⟨c0, _ | ⟨c1, _ | ⟨c2, _ | ⟨c3, rest⟩⟩⟩⟩)
  · rfl
  · rfl
  · rfl
  · rfl
  · rfl
  · unfold extractRow rowCandidates
    cases hI : getTextFromSpan doc c1.layout.textAnchor with
    | none => simp [hI]
    | some itemText =>
      cases hQ : getTextFromSpan doc c3.layout.textAnchor with
      | none => simp [hI, hQ]
      | some qtyText =>
        simp only [hI, hQ, Option.map_some]
        by_cases hcond : jsTrim itemText ∈ FIXED_ITEM_LIST ∧ normalizeQuantity qtyText ≠ "" <;>
          simp [filterPair, hcond]

theorem handler_valid (req : Request) (c : Collaborators) (hm : req.method = "POST")
    (hv : (jsTruthy req.storeId && jsTruthy req.date && jsTruthy req.image &&
      jsTruthy req.mimeType) = true) :
    handler req c = afterValidation (req.storeId.getD "") (req.date.getD "") c := by
  unfold handler
  rw [hm]
  simp [hv]

theorem sheetsAppend_mem_runCatch {e : JsError} {effs : List Effect}
    (h : Effect.sheetsAppend ∈ (runCatch e effs).effects) : Effect.sheetsAppend ∈ effs := by
  unfold runCatch at h
  split at h
  · exact h
  · rw [List.mem_append] at h
    rcases h with h | h
    · exact h
    · exact absurd h (by decide)

theorem append_effect_requires_rows (st dt : String) (c : Collaborators)
    (h : Effect.sheetsAppend ∈ (afterValidation st dt c).effects) :
    ∃ doc rows, c.ocrResult = Except.ok doc ∧ extractDemandData doc st dt = some rows ∧
      rows ≠ [] := by
  unfold afterValidation at h
  split at h
  · exact absurd (sheetsAppend_mem_runCatch h) (by decide)
  · split at h
    · exact absurd (sheetsAppend_mem_runCatch h) (by decide)
    · rename_i document hocr
      split at h
      · exact absurd (sheetsAppend_mem_runCatch h) (by decide)
      · rename_i newDemandRows hex
        split at h
        · exact absurd (sheetsAppend_mem_runCatch h) (by decide)
        · split at h
          · exact absurd h (by decide)
          · rename_i hlen
            refine ⟨document, newDemandRows, hocr, hex, ?_⟩
            intro hnil
            exact hlen (by simp [hnil])

/-! ### Claim theorems -/

/-- Claim C1: for a raw `(itemText, quantityText)` pair read from an eligible
body row, the pipeline emits a Demand Row if and only if the trimmed item
text is (case-sensitively) an entry of `FIXED_ITEM_LIST` and trimming the
quantity text and deleting every non-digit character leaves a non-empty
string; the emitted row carries the trimmed item text as `itemName` and
the stripped digit string as `quantity`. -/
theorem c1_catalog_filter_emits_iff (doc : Document) (st dt : String)
    (c0 itemCell c2 qtyCell : Cell) (rest : List Cell) (itemText qtyText : String)
    (hIt : getTextFromSpan doc itemCell.layout.textAnchor = some itemText)
    (hQt : getTextFromSpan doc qtyCell.layout.textAnchor = some qtyText) :
    extractRow doc st dt ⟨some (c0 :: itemCell :: c2 :: qtyCell :: rest)⟩ =
      some (if jsTrim itemText ∈ FIXED_ITEM_LIST ∧ stripNonDigits (jsTrim qtyText) ≠ "" then
        [⟨dt, st, jsTrim itemText, stripNonDigits (jsTrim qtyText)⟩]
      else []) := by
  unfold extractRow
  simp only [hIt, hQt, normalizeQuantity]
  by_cases hcond : jsTrim itemText ∈ FIXED_ITEM_LIST ∧ stripNonDigits (jsTrim qtyText) ≠ "" <;>
    simp [hcond]

/-- Witness for claim C1 on the spec scenario row `["1", "Sugar", "kg", "5 kg"]`:
the pair is accepted and the row `["2024-01-01", "S01", "Sugar", "5"]` is
emitted. -/
theorem c1_catalog_filter_emits_iff_witness :
    extractRow ⟨"1Sugarkg5 kg", none⟩ "S01" "2024-01-01"
      ⟨some [⟨⟨some ⟨some [⟨some 0, some 1⟩]⟩⟩⟩, ⟨⟨some ⟨some [⟨some 1, some 6⟩]⟩⟩⟩,
        ⟨⟨some ⟨some [⟨some 6, some 8⟩]⟩⟩⟩, ⟨⟨some ⟨some [⟨some 8, some 12⟩]⟩⟩⟩]⟩ =
      some [⟨"2024-01-01", "S01", "Sugar", "5"⟩] := by
  rw [c1_catalog_filter_emits_iff ⟨"1Sugarkg5 kg", none⟩ "S01" "2024-01-01"
    ⟨⟨some ⟨some [⟨some 0, some 1⟩]⟩⟩⟩ ⟨⟨some ⟨some [⟨some 1, some 6⟩]⟩⟩⟩
    ⟨⟨some ⟨some [⟨some 6, some 8⟩]⟩⟩⟩ ⟨⟨some ⟨some [⟨some 8, some 12⟩]⟩⟩⟩ []
    "Sugar" "5 kg" (by decide) (by decide)]
  decide

/-- Claim C2: every body row yields at most one candidate pair; a row with at
least 4 cells (and resolvable spans) yields exactly the pair made of cell
index 1 (item) and cell index 3 (quantity), and a row with fewer than 4
cells (or no cell list) yields none and is skipped without error (the row
loop returns successfully with no rows).  The last conjunct ties the
candidates to the pipeline: the emitted rows are exactly the candidates
passed through the catalog filter. -/
theorem c2_positional_mapping :
    (∀ (doc : Document) (st dt : String) (row : BodyRow) (cells : List Cell),
      row.cells = some cells → cells.length < 4 →
      rowCandidates doc row = some [] ∧ extractRow doc st dt row = some []) ∧
    (∀ (doc : Document) (st dt : String) (row : BodyRow),
      row.cells = none →
      rowCandidates doc row = some [] ∧ extractRow doc st dt row = some []) ∧
    (∀ (doc : Document) (c0 c1 c2 c3 : Cell) (rest : List Cell) (it qt : String),
      getTextFromSpan doc c1.layout.textAnchor = some it →
      getTextFromSpan doc c3.layout.textAnchor = some qt →
      rowCandidates doc ⟨some (c0 :: c1 :: c2 :: c3 :: rest)⟩ = some [(it, qt)]) ∧
    (∀ (doc : Document) (row : BodyRow) (l : List (String × String)),
      rowCandidates doc row = some l → l.length ≤ 1) ∧
    (∀ (doc : Document) (st dt : String) (row : BodyRow),
      extractRow doc st dt row =
        Option.map (fun ps => (ps.map (filterPair st dt)).flatten) (rowCandidates doc row)) := by
  refine ⟨?_, ?_, ?_, ?_, extractRow_eq_filter⟩
  · intro doc st dt row cells hc hlen
    rcases row with ⟨rc⟩
    cases hc
    rcases cells with _ | ⟨a, _ | ⟨b, _ | ⟨c, _ | ⟨d, rest⟩⟩⟩⟩
    · exact ⟨rfl, rfl⟩
    · exact ⟨rfl, rfl⟩
    · exact ⟨rfl, rfl⟩
    · exact ⟨rfl, rfl⟩
    · exact absurd hlen (by simp)
  · intro doc st dt row hc
    rcases row with ⟨rc⟩
    cases hc
    exact ⟨rfl, rfl⟩
  · intro doc c0 c1 c2 c3 rest it qt hIt hQt
    unfold rowCandidates
    simp [hIt, hQt]
  · intro doc row l h
    rcases row with ⟨rc⟩
    rcases rc with _ | (_ | ⟨a, _ | ⟨b, _ | ⟨c, _ | ⟨d, rest⟩⟩⟩⟩)
    · simp only [rowCandidates, Option.some.injEq] at h; subst h; decide
    · simp only [rowCandidates, Option.some.injEq] at h; subst h; decide
    · simp only [rowCandidates, Option.some.injEq] at h; subst h; decide
    · simp only [rowCandidates, Option.some.injEq] at h; subst h; decide
    · simp only [rowCandidates, Option.some.injEq] at h; subst h; decide
    · simp only [rowCandidates] at h
      cases hI : getTextFromSpan doc b.layout.textAnchor with
      | none => rw [hI] at h; simp at h
      | some it =>
        rw [hI] at h
        cases hQ : getTextFromSpan doc d.layout.textAnchor with
        | none => rw [hQ] at h; simp at h
        | some qt =>
          rw [hQ] at h
          simp only [Option.some.injEq] at h
          subst h
          simp

/-- Witness for claim C2: a 4-cell row yields exactly one candidate, and a
1-cell row yields none and no error. -/
theorem c2_positional_mapping_witness :
    rowCandidates ⟨"1Sugarkg5 kg", none⟩
      ⟨some [⟨⟨some ⟨some [⟨some 0, some 1⟩]⟩⟩⟩, ⟨⟨some ⟨some [⟨some 1, some 6⟩]⟩⟩⟩,
        ⟨⟨some ⟨some [⟨some 6, some 8⟩]⟩⟩⟩, ⟨⟨some ⟨some [⟨some 8, some 12⟩]⟩⟩⟩]⟩ =
      some [("Sugar", "5 kg")] ∧
    extractRow ⟨"1Sugarkg5 kg", none⟩ "S01" "2024-01-01"
      ⟨some [⟨⟨some ⟨some [⟨some 0, some 1⟩]⟩⟩⟩]⟩ = some [] := by
  constructor
  · rw [c2_positional_mapping.2.2.1 ⟨"1Sugarkg5 kg", none⟩
      ⟨⟨some ⟨some [⟨some 0, some 1⟩]⟩⟩⟩ ⟨⟨some ⟨some [⟨some 1, some 6⟩]⟩⟩⟩
      ⟨⟨some ⟨some [⟨some 6, some 8⟩]⟩⟩⟩ ⟨⟨some ⟨some [⟨some 8, some 12⟩]⟩⟩⟩ []
      "Sugar" "5 kg" (by decide) (by decide)]
  · exact (c2_positional_mapping.1 ⟨"1Sugarkg5 kg", none⟩ "S01" "2024-01-01"
      ⟨some [⟨⟨some ⟨some [⟨some 0, some 1⟩]⟩⟩⟩]⟩ [⟨⟨some ⟨some [⟨some 0, some 1⟩]⟩⟩⟩]
      rfl (by decide)).2

/-- Claim C8: the quantity normalization `trim` then strip-non-digits is
idempotent: an all-digit string is returned unchanged, applying it twice
equals applying it once, and the empty string or a digit-free string
normalizes to the empty string, which makes the catalog filter reject the
pair. -/
theorem c8_quantity_normalization_idempotent :
    (∀ s : String, (∀ c ∈ s.data, c.isDigit = true) →
      stripNonDigits (jsTrim s) = s) ∧
    (∀ s : String, stripNonDigits (jsTrim (stripNonDigits (jsTrim s))) =
      stripNonDigits (jsTrim s)) ∧
    stripNonDigits (jsTrim "") = "" ∧
    (∀ s : String, (∀ c ∈ s.data, c.isDigit = false) →
      stripNonDigits (jsTrim s) = "") ∧
    (∀ (st dt it qt : String), stripNonDigits (jsTrim qt) = "" →
      filterPair st dt (it, qt) = []) := by
  refine ⟨fun s h => normalizeQuantity_of_digits h, fun s => normalizeQuantity_idem s, rfl,
    fun s h => normalizeQuantity_of_no_digits h, ?_⟩
  intro st dt it qt hq
  unfold filterPair normalizeQuantity
  simp [hq]

/-- Witness for claim C8: `"509"` is already digit-only and survives
unchanged; `"kg."` has no digits, normalizes to empty and is rejected. -/
theorem c8_quantity_normalization_idempotent_witness :
    stripNonDigits (jsTrim "509") = "509" ∧
    stripNonDigits (jsTrim "kg.") = "" ∧
    filterPair "S01" "2024-01-01" ("Sugar", "kg.") = [] := by
  refine ⟨c8_quantity_normalization_idempotent.1 "509" (by decide), ?_, ?_⟩
  · exact c8_quantity_normalization_idempotent.2.2.2.1 "kg." (by decide)
  · exact c8_quantity_normalization_idempotent.2.2.2.2 "S01" "2024-01-01" "Sugar" "kg."
      (c8_quantity_normalization_idempotent.2.2.2.1 "kg." (by decide))

/-- Claim C3 counterexample: the claim says the resolver returns the empty
string when the anchor's segment list is present but empty; in the code an
empty JS array passes the `!textAnchor.textSegments` guard (arrays are
truthy) and `textSegments[0].startIndex` throws a `TypeError`, modelled as
`none` — no string is returned. -/
theorem c3_span_resolver_counterexample :
    getTextFromSpan ⟨"abc", none⟩ (some ⟨some []⟩) = none ∧
    getTextFromSpan ⟨"abc", none⟩ (some ⟨some []⟩) ≠ some "" :=
  ⟨rfl, by decide⟩

/-- Claim C3 amended: the span resolver returns a string without throwing
for every input EXCEPT a present anchor whose segment list is present and
empty; exactly there it throws.  In particular an absent anchor or an
absent segment list yields the empty string. -/
theorem c3_span_resolver_amended :
    (∀ (doc : Document) (ta : Option TextAnchor),
      getTextFromSpan doc ta = none ↔ ta = some ⟨some []⟩) ∧
    (∀ doc : Document, getTextFromSpan doc none = some "") ∧
    (∀ doc : Document, getTextFromSpan doc (some ⟨none⟩) = some "") := by
  refine ⟨?_, fun doc => rfl, fun doc => rfl⟩
  intro doc ta
  constructor
  · intro h
    rcases ta with _ | ⟨_ | segs⟩
    · exact absurd h (by simp [getTextFromSpan])
    · exact absurd h (by simp [getTextFromSpan])
    · rcases segs with _ | ⟨first, rest⟩
      · rfl
      · exact absurd h (by simp [getTextFromSpan])
  · rintro rfl
    rfl

/-- Witness for claim C3 amended: the resolver throws on the empty segment
list, obtained from the amended equivalence. -/
theorem c3_span_resolver_amended_witness :
    getTextFromSpan ⟨"abc", none⟩ (some ⟨some []⟩) = none :=
  (c3_span_resolver_amended.1 ⟨"abc", none⟩ (some ⟨some []⟩)).mpr rfl

/-- Claim C4: for an anchor with a non-empty segment list the resolver
returns the single contiguous substring of the text buffer running from
the first segment's `startIndex` (default 0) to the LAST segment's
`endIndex` (default 0); `(first :: rest).getLastD first` is that last
segment.  It does not join the per-segment substrings: on the two disjoint
segments `[0,2)` and `[4,6)` of `"abcdef"` it returns the whole of
`"abcdef"`, including the characters `"cd"` that lie between the segments,
while the join-of-segments reading would give `"abef"`. -/
theorem c4_contiguous_span_resolution :
    (∀ (doc : Document) (first : TextSegment) (rest : List TextSegment),
      getTextFromSpan doc (some ⟨some (first :: rest)⟩) =
        some (jsSubstring doc.text ((first.startIndex).getD 0)
          ((((first :: rest).getLastD first).endIndex).getD 0))) ∧
    getTextFromSpan ⟨"abcdef", none⟩
      (some ⟨some [⟨some 0, some 2⟩, ⟨some 4, some 6⟩]⟩) = some "abcdef" ∧
    joinSegmentsResolver ⟨"abcdef", none⟩
      (some ⟨some [⟨some 0, some 2⟩, ⟨some 4, some 6⟩]⟩) = "abef" ∧
    ("abcdef" : String) ≠ "abef" := by
  refine ⟨?_, by decide, by decide, by decide⟩
  intro doc first rest
  rw [List.getLastD_cons]
  rfl

/-- Claim C7: extraction respects the page-then-table-then-row traversal
order of the document graph: splitting the page list (resp. a page's table
list, a table's body-row list) splits the output, with every row coming
from the earlier part preceding every row coming from the later part, and
a one-row table extracts exactly that row's output. -/
theorem c7_traversal_order :
    (∀ (doc : Document) (st dt : String) (ps₁ ps₂ : List Page) (r₁ r₂ : List DemandRow),
      doc.pages = some (ps₁ ++ ps₂) →
      collectSome (extractPage doc st dt) ps₁ = some r₁ →
      collectSome (extractPage doc st dt) ps₂ = some r₂ →
      extractDemandData doc st dt = some (r₁ ++ r₂)) ∧
    (∀ (doc : Document) (st dt : String) (page : Page) (ts₁ ts₂ : List Table)
        (r₁ r₂ : List DemandRow),
      page.tables = some (ts₁ ++ ts₂) →
      collectSome (extractTable doc st dt) ts₁ = some r₁ →
      collectSome (extractTable doc st dt) ts₂ = some r₂ →
      extractPage doc st dt page = some (r₁ ++ r₂)) ∧
    (∀ (doc : Document) (st dt : String) (table : Table) (rs₁ rs₂ : List BodyRow)
        (r₁ r₂ : List DemandRow),
      table.bodyRows = rs₁ ++ rs₂ →
      collectSome (extractRow doc st dt) rs₁ = some r₁ →
      collectSome (extractRow doc st dt) rs₂ = some r₂ →
      extractTable doc st dt table = some (r₁ ++ r₂)) ∧
    (∀ (doc : Document) (st dt : String) (row : BodyRow),
      extractTable doc st dt ⟨[row]⟩ = extractRow doc st dt row) := by
  refine ⟨?_, ?_, ?_, ?_⟩
  · intro doc st dt ps₁ ps₂ r₁ r₂ hp h₁ h₂
    rw [extractDemandData_pages doc st dt (ps₁ ++ ps₂) hp]
    exact collectSome_append_of _ ps₁ ps₂ r₁ r₂ h₁ h₂
  · intro doc st dt page ts₁ ts₂ r₁ r₂ hp h₁ h₂
    unfold extractPage
    rw [hp]
    exact collectSome_append_of _ ts₁ ts₂ r₁ r₂ h₁ h₂
  · intro doc st dt table rs₁ rs₂ r₁ r₂ hp h₁ h₂
    unfold extractTable
    rw [hp]
    exact collectSome_append_of _ rs₁ rs₂ r₁ r₂ h₁ h₂
  · intro doc st dt row
    exact collectSome_singleton _ row

/-- Witness for claim C7: a document with two one-table pages (a Sugar row
on the first page, a Poha row on the second) extracts the first page's row
before the second page's row. -/
theorem c7_traversal_order_witness :
    extractDemandData
      ⟨"Sugar5Poha3",
        some [⟨some [⟨[⟨some [⟨⟨some ⟨some [⟨some 0, some 0⟩]⟩⟩⟩,
            ⟨⟨some ⟨some [⟨some 0, some 5⟩]⟩⟩⟩, ⟨⟨some ⟨some [⟨some 0, some 0⟩]⟩⟩⟩,
            ⟨⟨some ⟨some [⟨some 5, some 6⟩]⟩⟩⟩]⟩]⟩]⟩,
          ⟨some [⟨[⟨some [⟨⟨some ⟨some [⟨some 0, some 0⟩]⟩⟩⟩,
            ⟨⟨some ⟨some [⟨some 6, some 10⟩]⟩⟩⟩, ⟨⟨some ⟨some [⟨some 0, some 0⟩]⟩⟩⟩,
            ⟨⟨some ⟨some [⟨some 10, some 11⟩]⟩⟩⟩]⟩]⟩]⟩]⟩
      "S01" "2024-01-01" =
      some [⟨"2024-01-01", "S01", "Sugar", "5"⟩, ⟨"2024-01-01", "S01", "Poha", "3"⟩] := by
  rw [c7_traversal_order.1
    ⟨"Sugar5Poha3",
      some [⟨some [⟨[⟨some [⟨⟨some ⟨some [⟨some 0, some 0⟩]⟩⟩⟩,
          ⟨⟨some ⟨some [⟨some 0, some 5⟩]⟩⟩⟩, ⟨⟨some ⟨some [⟨some 0, some 0⟩]⟩⟩⟩,
          ⟨⟨some ⟨some [⟨some 5, some 6⟩]⟩⟩⟩]⟩]⟩]⟩,
        ⟨some [⟨[⟨some [⟨⟨some ⟨some [⟨some 0, some 0⟩]⟩⟩⟩,
          ⟨⟨some ⟨some [⟨some 6, some 10⟩]⟩⟩⟩, ⟨⟨some ⟨some [⟨some 0, some 0⟩]⟩⟩⟩,
          ⟨⟨some ⟨some [⟨some 10, some 11⟩]⟩⟩⟩]⟩]⟩]⟩]⟩
    "S01" "2024-01-01"
    [⟨some [⟨[⟨some [⟨⟨some ⟨some [⟨some 0, some 0⟩]⟩⟩⟩,
        ⟨⟨some ⟨some [⟨some 0, some 5⟩]⟩⟩⟩, ⟨⟨some ⟨some [⟨some 0, some 0⟩]⟩⟩⟩,
        ⟨⟨some ⟨some [⟨some 5, some 6⟩]⟩⟩⟩]⟩]⟩]⟩]
    [⟨some [⟨[⟨some [⟨⟨some ⟨some [⟨some 0, some 0⟩]⟩⟩⟩,
        ⟨⟨some ⟨some [⟨some 6, some 10⟩]⟩⟩⟩, ⟨⟨some ⟨some [⟨some 0, some 0⟩]⟩⟩⟩,
        ⟨⟨some ⟨some [⟨some 10, some 11⟩]⟩⟩⟩]⟩]⟩]⟩]
    [⟨"2024-01-01", "S01", "Sugar", "5"⟩] [⟨"2024-01-01", "S01", "Poha", "3"⟩]
    rfl (by decide) (by decide)]
  rfl

/-- Claim C5 counterexample: blob write succeeds and OCR fails with an
error whose `code` is `'NotFound'`; the catch block's guard
`error.code !== 'NotFound'` then SKIPS the blob delete, so no delete is
attempted, contradicting the claim that the handler always attempts the
delete after an OCR failure.  (The response is still the 500 carrying the
OCR error's message.) -/
theorem c5_cleanup_counterexample :
    (handler ⟨"POST", some "S01", some "2024-01-01", some "aW1n", some "image/jpeg", none⟩
      ⟨none, Except.error ⟨some "NotFound", "processor missing"⟩, none,
        Except.ok none, none⟩).httpStatus = 500 ∧
    Effect.gcsDelete ∉
      (handler ⟨"POST", some "S01", some "2024-01-01", some "aW1n", some "image/jpeg", none⟩
        ⟨none, Except.error ⟨some "NotFound", "processor missing"⟩, none,
          Except.ok none, none⟩).effects := by
  decide

/-- Claim C5 amended: whenever the blob write succeeds and the OCR
invocation or any later pipeline step fails — OCR itself, the extraction
(`TypeError`), the success-path blob delete, or the sheet append — the
handler responds 500 with the original failure's message in `details`,
and a delete of the staged blob is attempted before responding, EXCEPT in
the single case the counterexample forces: an OCR failure whose `code` is
the string `'NotFound'`, where the catch guard `error.code !== 'NotFound'`
skips the cleanup delete (for failures at or after the success-path
delete a delete attempt is already in the trace regardless).  The outcome
of the best-effort cleanup delete is never read, so a failing delete
cannot change the response. -/
theorem c5_cleanup_amended (req : Request) (c : Collaborators)
    (hm : req.method = "POST")
    (hv : (jsTruthy req.storeId && jsTruthy req.date && jsTruthy req.image &&
      jsTruthy req.mimeType) = true)
    (hs : c.saveResult = none) :
    (∀ e : JsError, c.ocrResult = Except.error e →
      (handler req c).httpStatus = 500 ∧
      (handler req c).body.status = some "error" ∧
      (handler req c).body.details = some e.message ∧
      (e.code ≠ some "NotFound" → Effect.gcsDelete ∈ (handler req c).effects) ∧
      (e.code = some "NotFound" → Effect.gcsDelete ∉ (handler req c).effects)) ∧
    (∀ doc : Document, c.ocrResult = Except.ok doc →
      extractDemandData doc (req.storeId.getD "") (req.date.getD "") = none →
      (handler req c).httpStatus = 500 ∧
      (handler req c).body.status = some "error" ∧
      (handler req c).body.details = some jsTypeErrorMessage ∧
      Effect.gcsDelete ∈ (handler req c).effects) ∧
    (∀ (doc : Document) (rows : List DemandRow) (e : JsError),
      c.ocrResult = Except.ok doc →
      extractDemandData doc (req.storeId.getD "") (req.date.getD "") = some rows →
      c.deleteResult = some e →
      (handler req c).httpStatus = 500 ∧
      (handler req c).body.status = some "error" ∧
      (handler req c).body.details = some e.message ∧
      Effect.gcsDelete ∈ (handler req c).effects) ∧
    (∀ (doc : Document) (rows : List DemandRow) (e : JsError),
      c.ocrResult = Except.ok doc →
      extractDemandData doc (req.storeId.getD "") (req.date.getD "") = some rows →
      rows ≠ [] →
      c.deleteResult = none →
      c.appendResult = Except.error e →
      (handler req c).httpStatus = 500 ∧
      (handler req c).body.status = some "error" ∧
      (handler req c).body.details = some e.message ∧
      Effect.gcsDelete ∈ (handler req c).effects) ∧
    (∀ r : Option JsError,
      handler req ⟨c.saveResult, c.ocrResult, c.deleteResult, c.appendResult, r⟩ =
        handler req c) := by
  have hh := handler_valid req c hm hv
  refine ⟨?_, ?_, ?_, ?_, ?_⟩
  · intro e ho
    rw [hh]
    unfold afterValidation
    simp only [hs, ho]
    unfold runCatch
    by_cases hc : e.code = some "NotFound"
    · rw [if_pos hc]
      exact ⟨rfl, rfl, rfl, fun hne => absurd hc hne, fun _ => by simp⟩
    · rw [if_neg hc]
      exact ⟨rfl, rfl, rfl, fun _ => by simp, fun heq => absurd heq hc⟩
  · intro doc ho hex
    rw [hh]
    unfold afterValidation
    simp only [hs, ho, hex]
    exact ⟨rfl, rfl, rfl, by decide⟩
  · intro doc rows e ho hex hd
    rw [hh]
    unfold afterValidation
    simp only [hs, ho, hex, hd]
    unfold runCatch
    by_cases hc : e.code = some "NotFound"
    · rw [if_pos hc]
      exact ⟨rfl, rfl, rfl, by simp⟩
    · rw [if_neg hc]
      exact ⟨rfl, rfl, rfl, by simp⟩
  · intro doc rows e ho hex hne hd ha
    rw [hh]
    unfold afterValidation
    simp only [hs, ho, hex, hd, ha]
    cases rows with
    | nil => exact absurd rfl hne
    | cons a as =>
      rw [if_neg (by simp : ¬((a :: as).length = 0))]
      unfold runCatch
      by_cases hc : e.code = some "NotFound"
      · rw [if_pos hc]
        exact ⟨rfl, rfl, rfl, by simp⟩
      · rw [if_neg hc]
        exact ⟨rfl, rfl, rfl, by simp⟩
  · intro r
    rcases c with ⟨cs, co, cd, ca, cr⟩
    rfl

/-- Witness for claim C5 amended: on an OCR quota error (code absent) the
handler responds 500 with the OCR message in `details` and attempts the
delete; on a later-step failure (the sheet append rejecting after a Sugar
row was extracted) the handler responds 500 with the append message in
`details` and a delete attempt is in the trace. -/
theorem c5_cleanup_amended_witness :
    (handler ⟨"POST", some "S01", some "2024-01-01", some "aW1n", some "image/jpeg", none⟩
      ⟨none, Except.error ⟨none, "quota exceeded"⟩, none, Except.ok none, none⟩).httpStatus = 500 ∧
    (handler ⟨"POST", some "S01", some "2024-01-01", some "aW1n", some "image/jpeg", none⟩
      ⟨none, Except.error ⟨none, "quota exceeded"⟩, none, Except.ok none, none⟩).body.details =
      some "quota exceeded" ∧
    Effect.gcsDelete ∈
      (handler ⟨"POST", some "S01", some "2024-01-01", some "aW1n", some "image/jpeg", none⟩
        ⟨none, Except.error ⟨none, "quota exceeded"⟩, none, Except.ok none, none⟩).effects ∧
    (handler ⟨"POST", some "S01", some "2024-01-01", some "aW1n", some "image/jpeg", none⟩
      ⟨none, Except.ok ⟨"1Sugarkg5 kg",
          some [⟨some [⟨[⟨some [⟨⟨some ⟨some [⟨some 0, some 1⟩]⟩⟩⟩,
            ⟨⟨some ⟨some [⟨some 1, some 6⟩]⟩⟩⟩, ⟨⟨some ⟨some [⟨some 6, some 8⟩]⟩⟩⟩,
            ⟨⟨some ⟨some [⟨some 8, some 12⟩]⟩⟩⟩]⟩]⟩]⟩]⟩,
        none, Except.error ⟨none, "append failed"⟩, none⟩).httpStatus = 500 ∧
    (handler ⟨"POST", some "S01", some "2024-01-01", some "aW1n", some "image/jpeg", none⟩
      ⟨none, Except.ok ⟨"1Sugarkg5 kg",
          some [⟨some [⟨[⟨some [⟨⟨some ⟨some [⟨some 0, some 1⟩]⟩⟩⟩,
            ⟨⟨some ⟨some [⟨some 1, some 6⟩]⟩⟩⟩, ⟨⟨some ⟨some [⟨some 6, some 8⟩]⟩⟩⟩,
            ⟨⟨some ⟨some [⟨some 8, some 12⟩]⟩⟩⟩]⟩]⟩]⟩]⟩,
        none, Except.error ⟨none, "append failed"⟩, none⟩).body.details = some "append failed" ∧
    Effect.gcsDelete ∈
      (handler ⟨"POST", some "S01", some "2024-01-01", some "aW1n", some "image/jpeg", none⟩
        ⟨none, Except.ok ⟨"1Sugarkg5 kg",
            some [⟨some [⟨[⟨some [⟨⟨some ⟨some [⟨some 0, some 1⟩]⟩⟩⟩,
              ⟨⟨some ⟨some [⟨some 1, some 6⟩]⟩⟩⟩, ⟨⟨some ⟨some [⟨some 6, some 8⟩]⟩⟩⟩,
              ⟨⟨some ⟨some [⟨some 8, some 12⟩]⟩⟩⟩]⟩]⟩]⟩]⟩,
          none, Except.error ⟨none, "append failed"⟩, none⟩).effects := by
  have hA := (c5_cleanup_amended
    ⟨"POST", some "S01", some "2024-01-01", some "aW1n", some "image/jpeg", none⟩
    ⟨none, Except.error ⟨none, "quota exceeded"⟩, none, Except.ok none, none⟩
    rfl (by decide) rfl).1 ⟨none, "quota exceeded"⟩ rfl
  have hD := (c5_cleanup_amended
    ⟨"POST", some "S01", some "2024-01-01", some "aW1n", some "image/jpeg", none⟩
    ⟨none, Except.ok ⟨"1Sugarkg5 kg",
        some [⟨some [⟨[⟨some [⟨⟨some ⟨some [⟨some 0, some 1⟩]⟩⟩⟩,
          ⟨⟨some ⟨some [⟨some 1, some 6⟩]⟩⟩⟩, ⟨⟨some ⟨some [⟨some 6, some 8⟩]⟩⟩⟩,
          ⟨⟨some ⟨some [⟨some 8, some 12⟩]⟩⟩⟩]⟩]⟩]⟩]⟩,
      none, Except.error ⟨none, "append failed"⟩, none⟩
    rfl (by decide) rfl).2.2.2.1
    ⟨"1Sugarkg5 kg",
      some [⟨some [⟨[⟨some [⟨⟨some ⟨some [⟨some 0, some 1⟩]⟩⟩⟩,
        ⟨⟨some ⟨some [⟨some 1, some 6⟩]⟩⟩⟩, ⟨⟨some ⟨some [⟨some 6, some 8⟩]⟩⟩⟩,
        ⟨⟨some ⟨some [⟨some 8, some 12⟩]⟩⟩⟩]⟩]⟩]⟩]⟩
    [⟨"2024-01-01", "S01", "Sugar", "5"⟩] ⟨none, "append failed"⟩
    rfl (by decide) (by decide) rfl rfl
  exact ⟨hA.1, hA.2.2.1, hA.2.2.2.1 (by decide), hD.1, hD.2.2.1, hD.2.2.2⟩

/-- Claim C6: a document graph with no pages (absent or empty page list)
or whose pages all lack tables extracts the empty row list, and a
submission whose OCR returns such a graph (with staging and cleanup
succeeding) gets the HTTP 200 warning response with `status: "warning"`
and `rows_added: 0`. -/
theorem c6_empty_document_warning :
    (∀ (doc : Document) (st dt : String), doc.pages = none →
      extractDemandData doc st dt = some []) ∧
    (∀ (doc : Document) (st dt : String) (ps : List Page), doc.pages = some ps →
      (∀ p ∈ ps, p.tables = none ∨ p.tables = some []) →
      extractDemandData doc st dt = some []) ∧
    (∀ (req : Request) (c : Collaborators) (doc : Document),
      req.method = "POST" →
      (jsTruthy req.storeId && jsTruthy req.date && jsTruthy req.image &&
        jsTruthy req.mimeType) = true →
      c.saveResult = none →
      c.ocrResult = Except.ok doc →
      extractDemandData doc (req.storeId.getD "") (req.date.getD "") = some [] →
      c.deleteResult = none →
      (handler req c).httpStatus = 200 ∧
      (handler req c).body.status = some "warning" ∧
      (handler req c).body.rows_added = some 0) := by
  refine ⟨?_, ?_, ?_⟩
  · intro doc st dt h
    unfold extractDemandData
    rw [h]
  · intro doc st dt ps hp htab
    rw [extractDemandData_pages doc st dt ps hp]
    refine collectSome_nil_of _ ps (fun p hmem => ?_)
    rcases htab p hmem with h | h
    · unfold extractPage
      rw [h]
    · unfold extractPage
      rw [h]
      rfl
  · intro req c doc hm hv hs ho hex hd
    rw [handler_valid _ _ hm hv]
    unfold afterValidation
    simp only [hs, ho, hex, hd]
    exact ⟨rfl, rfl, rfl⟩

/-- Witness for claim C6: OCR returns a one-page graph with no tables; the
extraction is empty and the response is the warning with zero rows. -/
theorem c6_empty_document_warning_witness :
    extractDemandData ⟨"", some [⟨none⟩]⟩ "S01" "2024-01-01" = some [] ∧
    (handler ⟨"POST", some "S01", some "2024-01-01", some "aW1n", some "image/jpeg", none⟩
      ⟨none, Except.ok ⟨"", some [⟨none⟩]⟩, none, Except.ok none, none⟩).httpStatus = 200 ∧
    (handler ⟨"POST", some "S01", some "2024-01-01", some "aW1n", some "image/jpeg", none⟩
      ⟨none, Except.ok ⟨"", some [⟨none⟩]⟩, none, Except.ok none, none⟩).body.status =
      some "warning" := by
  have hex := c6_empty_document_warning.2.1 ⟨"", some [⟨none⟩]⟩ "S01" "2024-01-01"
    [⟨none⟩] rfl (by intro p hp; simp at hp; subst hp; exact Or.inl rfl)
  have hh := c6_empty_document_warning.2.2
    ⟨"POST", some "S01", some "2024-01-01", some "aW1n", some "image/jpeg", none⟩
    ⟨none, Except.ok ⟨"", some [⟨none⟩]⟩, none, Except.ok none, none⟩
    ⟨"", some [⟨none⟩]⟩ rfl (by decide) rfl rfl hex rfl
  exact ⟨hex, hh.1, hh.2.1⟩

/-- Claim C9: a POST request missing the store identifier, date, image
payload or MIME type is rejected with HTTP 400 and the error message, and
no collaborator call (blob write, OCR, sheet append, delete) is
performed. -/
theorem c9_validation_rejects_without_side_effects (req : Request) (c : Collaborators)
    (hm : req.method = "POST")
    (habs : req.storeId = none ∨ req.date = none ∨ req.image = none ∨ req.mimeType = none) :
    (handler req c).httpStatus = 400 ∧
    (handler req c).body.error = some "Missing required data in request body." ∧
    (handler req c).effects = [] := by
  have hguard : (jsTruthy req.storeId && jsTruthy req.date && jsTruthy req.image &&
      jsTruthy req.mimeType) = false := by
    rcases habs with h | h | h | h <;> simp [h, jsTruthy]
  unfold handler
  rw [hm]
  simp [hguard, missingDataBody]

/-- Witness for claim C9: a request with no store identifier is rejected
with 400 and an empty effect list. -/
theorem c9_validation_rejects_without_side_effects_witness :
    (handler ⟨"POST", none, some "2024-01-01", some "aW1n", some "image/jpeg", none⟩
      ⟨none, Except.error ⟨none, "never called"⟩, none, Except.ok none, none⟩).httpStatus = 400 ∧
    (handler ⟨"POST", none, some "2024-01-01", some "aW1n", some "image/jpeg", none⟩
      ⟨none, Except.error ⟨none, "never called"⟩, none, Except.ok none, none⟩).effects = [] := by
  have h := c9_validation_rejects_without_side_effects
    ⟨"POST", none, some "2024-01-01", some "aW1n", some "image/jpeg", none⟩
    ⟨none, Except.error ⟨none, "never called"⟩, none, Except.ok none, none⟩
    rfl (Or.inl rfl)
  exact ⟨h.1, h.2.2⟩

/-- Claim C10: when extraction yields zero rows the spreadsheet append is
never invoked — and (when the success-path blob delete also succeeds) the
response is the warning; conversely, whenever the append effect occurs,
OCR returned a document whose extraction produced at least one row. -/
theorem c10_empty_extraction_skips_append :
    (∀ (req : Request) (c : Collaborators) (doc : Document),
      req.method = "POST" →
      (jsTruthy req.storeId && jsTruthy req.date && jsTruthy req.image &&
        jsTruthy req.mimeType) = true →
      c.saveResult = none →
      c.ocrResult = Except.ok doc →
      extractDemandData doc (req.storeId.getD "") (req.date.getD "") = some [] →
      Effect.sheetsAppend ∉ (handler req c).effects ∧
      (c.deleteResult = none →
        (handler req c).httpStatus = 200 ∧ (handler req c).body.status = some "warning")) ∧
    (∀ (req : Request) (c : Collaborators),
      Effect.sheetsAppend ∈ (handler req c).effects →
      ∃ (doc : Document) (rows : List DemandRow),
        c.ocrResult = Except.ok doc ∧
        extractDemandData doc (req.storeId.getD "") (req.date.getD "") = some rows ∧
        rows ≠ []) := by
  constructor
  · intro req c doc hm hv hs ho hex
    rw [handler_valid _ _ hm hv]
    unfold afterValidation
    simp only [hs, ho, hex]
    constructor
    · cases hd : c.deleteResult with
      | some e =>
        intro hmem
        exact absurd (sheetsAppend_mem_runCatch hmem) (by decide)
      | none =>
        intro hmem
        simp at hmem
    · intro hd
      rw [hd]
      exact ⟨rfl, rfl⟩
  · intro req c h
    unfold handler at h
    split at h
    · exact absurd h (by decide)
    · split at h
      · exact absurd h (by decide)
      · exact append_effect_requires_rows _ _ c h

/-- Witness for claim C10: on the no-tables document the append effect is
absent and the warning is returned. -/
theorem c10_empty_extraction_skips_append_witness :
    Effect.sheetsAppend ∉
      (handler ⟨"POST", some "S01", some "2024-01-01", some "aW1n", some "image/jpeg", none⟩
        ⟨none, Except.ok ⟨"", some [⟨none⟩]⟩, none, Except.ok none, none⟩).effects ∧
    (handler ⟨"POST", some "S01", some "2024-01-01", some "aW1n", some "image/jpeg", none⟩
      ⟨none, Except.ok ⟨"", some [⟨none⟩]⟩, none, Except.ok none, none⟩).httpStatus = 200 := by
  have h := c10_empty_extraction_skips_append.1
    ⟨"POST", some "S01", some "2024-01-01", some "aW1n", some "image/jpeg", none⟩
    ⟨none, Except.ok ⟨"", some [⟨none⟩]⟩, none, Except.ok none, none⟩
    ⟨"", some [⟨none⟩]⟩ rfl (by decide) rfl rfl (by decide)
  exact ⟨h.1, (h.2 rfl).1⟩

end TacBackend
